import Mathlib

/-!
Verification of the `simple-ts-setup` repository.

The repository has two components:
* a client module `src/client/sum.ts` exporting two pure functions,
  `sum` (left fold of addition over its numeric arguments) and
  `shift` (per-character code-unit increment over a string),
  used by the bootstrap script `src/client/index.ts` which appends two
  paragraph elements to the `#app` mount element; and
* an Express server (`unnamed/part_000`) that mounts a static file
  middleware at `/public` and a catch-all `app.get("*")` route rendering
  the `index` template.

JavaScript strings are modelled as lists of UTF-16 code units
(natural numbers below 2^16).  JavaScript numbers are modelled as exact
integers: the specification's data model declares the summed sequence to
be "an ordered sequence of integers" and explicitly leaves the numeric
representation open ("for any chosen numeric representation"), so the
exact-integer model is the faithful one; double-precision rounding of
very large literals is a representation artifact the spec disclaims.
-/

/-- A UTF-16 high surrogate: `0xD800 ≤ u < 0xDC00`. -/
def isHigh (u : Nat) : Bool := decide (0xD800 ≤ u ∧ u < 0xDC00)

/-- A UTF-16 low surrogate: `0xDC00 ≤ u < 0xE000`. -/
def isLow (u : Nat) : Bool := decide (0xDC00 ≤ u ∧ u < 0xE000)

/-- JavaScript string iteration (`[...str]`): splits a list of UTF-16 code
units into the "characters" the string iterator yields.  A high surrogate
immediately followed by a low surrogate is yielded as one two-unit
character; every other unit (including a lone surrogate) is yielded on
its own.  This is the semantics of the spread `[...str]` in
`src/client/sum.ts`. -/
def strIter : List Nat → List (List Nat)
  | [] => []
  | [u] => [[u]]
  | u :: v :: rest =>
    if isHigh u && isLow v then [u, v] :: strIter rest
    else [u] :: strIter (v :: rest)

/-- The code point denoted by one iterated character: a surrogate pair
decodes to its supplementary-plane scalar value, a single unit denotes
itself. -/
def codePoint : List Nat → Nat
  | [u, v] => 0x10000 + (u - 0xD800) * 0x400 + (v - 0xDC00)
  | u :: _ => u
  | [] => 0

/-- `shift` from `src/client/sum.ts`:
`[...str].map(e => String.fromCharCode(e.charCodeAt(0) + 1)).join("")`.
For each iterated character, `charCodeAt(0)` reads the FIRST UTF-16 code
unit, adds one, and `String.fromCharCode` truncates to 16 bits
(`ToUint16`), producing exactly one output code unit per iterated
character. -/
def shift (s : List Nat) : List Nat :=
  (strIter s).map (fun c => (c.headD 0 + 1) % 65536)

/-- UTF-16 code units of a Lean string literal.  All literals in this
repository are in the Basic Multilingual Plane, where each character is
one code unit equal to its code point. -/
def strUnits (s : String) : List Nat := s.data.map Char.toNat

/-- JavaScript `Array.prototype.reduce` with an initial value: the
callback is applied left to right, starting from the initial value,
visiting every element (no short-circuit). -/
def jsReduce {α β : Type} (f : α → β → α) (init : α) : List β → α
  | [] => init
  | b :: t => jsReduce f (f init b) t

/-- `sum` from `src/client/sum.ts`:
`args.reduce((a, b) => a + b, 0)`. -/
def sum (args : List Int) : Int := jsReduce (fun a b => a + b) 0 args

/-- The spec's words for how the total must be computed: "a full
left-to-right fold (no short-circuiting, no reordering)" of addition
starting from 0.  Stated with `List.foldl` to compare against the
source's `sum`. -/
def specLeftFoldSum (xs : List Int) : Int := xs.foldl (fun a b => a + b) 0

theorem jsReduce_eq_foldl {α β : Type} (f : α → β → α) :
    ∀ (xs : List β) (init : α), jsReduce f init xs = xs.foldl f init
  | [], _ => rfl
  | b :: t, init => by
    simp only [jsReduce, List.foldl]
    exact jsReduce_eq_foldl f t (f init b)

theorem foldl_add_shift : ∀ (xs : List Int) (n : Int),
    xs.foldl (fun a b => a + b) n = n + xs.foldl (fun a b => a + b) 0
  | [], n => by simp
  | x :: t, n => by
    simp only [List.foldl]
    rw [foldl_add_shift t (n + x), foldl_add_shift t (0 + x)]
    ring

theorem sum_append (xs ys : List Int) : sum (xs ++ ys) = sum xs + sum ys := by
  simp only [sum, jsReduce_eq_foldl, List.foldl_append]
  rw [foldl_add_shift ys (List.foldl (fun a b => a + b) 0 xs)]

/-- C5: `sum` of the empty sequence is exactly `0`. -/
theorem sum_nil_eq_zero : sum [] = 0 := rfl

/-- C6: `sum` of a one-element sequence `[a]` is `a`, for every integer
`a`. -/
theorem sum_singleton (a : Int) : sum [a] = a := by
  simp [sum, jsReduce]

theorem sum_singleton_witness : sum [(5 : Int)] = 5 := sum_singleton 5

/-- C4: `sum` is exactly the full left-to-right fold of addition over its
argument sequence starting from `0` — `Array.prototype.reduce` with
initial value `0` refines the spec's left fold, visiting every element in
order with no short-circuit and no reordering. -/
theorem sum_is_left_fold (xs : List Int) : sum xs = specLeftFoldSum xs :=
  jsReduce_eq_foldl (fun a b => a + b) xs 0

theorem sum_is_left_fold_witness : sum [(1 : Int), 2, 3] = specLeftFoldSum [1, 2, 3] :=
  sum_is_left_fold [1, 2, 3]

/-- C3: the total is order-independent — `sum xs = sum (reverse xs)` for
every finite sequence of integers. -/
theorem sum_reverse (xs : List Int) : sum xs = sum xs.reverse := by
  induction xs with
  | nil => rfl
  | cons x t ih =>
    have h1 : sum (x :: t) = sum [x] + sum t := sum_append [x] t
    have h2 : sum (t.reverse ++ [x]) = sum t.reverse + sum [x] :=
      sum_append t.reverse [x]
    simp only [List.reverse_cons]
    rw [h2, h1, ← ih]
    ring

theorem sum_reverse_witness : sum [(1 : Int), 2, 3] = sum ([(1 : Int), 2, 3]).reverse :=
  sum_reverse [1, 2, 3]

/-- Code units whose increment cannot create a surrogate artifact: either
`u + 1` stays below the surrogate range, or `u` lies in `[0xE000, 0xFFFF)`
so that `u + 1` is a non-surrogate BMP unit.  Such units are iterated one
at a time and their increment neither wraps nor forms a surrogate pair. -/
def goodUnit (u : Nat) : Prop := u + 1 < 0xD800 ∨ (0xE000 ≤ u ∧ u < 0xFFFF)

instance : DecidablePred goodUnit := fun u => by
  unfold goodUnit; infer_instance

theorem strIter_no_high (s : List Nat) (h : ∀ u ∈ s, isHigh u = false) :
    strIter s = s.map (fun u => [u]) := by
  induction s using strIter.induct with
  | case1 => rfl
  | case2 u => rfl
  | case3 u v rest hcond ih =>
    have hu : isHigh u = false := h u (by simp)
    simp [hu] at hcond
  | case4 u v rest hcond ih =>
    rw [strIter, if_neg (by exact fun hc => by simp [h u (by simp)] at hc)]
    simp only [List.map_cons, List.cons.injEq, true_and]
    exact ih (fun w hw => h w (List.mem_cons_of_mem u hw))

theorem goodUnit_not_high {u : Nat} (h : goodUnit u) : isHigh u = false := by
  simp only [isHigh, decide_eq_false_iff_not, not_and, not_lt]
  rcases h with h1 | ⟨h2, _⟩ <;> omega

theorem shift_good (s : List Nat) (h : ∀ u ∈ s, goodUnit u) :
    shift s = s.map (fun u => u + 1) := by
  rw [shift, strIter_no_high s (fun u hu => goodUnit_not_high (h u hu)), List.map_map]
  apply List.map_congr_left
  intro u hu
  rcases h u hu with h1 | ⟨h2, h3⟩ <;> simp <;> omega

/-- C1 counterexample: the input string consisting of the single
character U+FFFF is mapped by `shift` to U+0000, whose code point is not
`0xFFFF + 1` — `String.fromCharCode` truncates to 16 bits, so the claim
"each character's code point is replaced by that character's code point
plus one" fails for every input string. -/
theorem shift_codepoint_claim_counterexample :
    ¬ ((strIter (shift [0xFFFF])).map codePoint
        = (strIter [0xFFFF]).map (fun c => codePoint c + 1)) := by
  decide

/-- C1 (amended): for every input string all of whose code units `u`
satisfy `u + 1 < 0xD800` or `0xE000 ≤ u < 0xFFFF` (in particular every
ASCII string), `shift` produces a string of the same length in which each
character's code point is the input character's code point plus one; in
particular `shift "a" = "b"` and `shift "" = ""`.  (Characters whose
first code unit is `0xFFFF` wrap to U+0000, characters outside the BMP
are shifted by their high surrogate alone, and increments that create
surrogates can merge adjacent characters, so the restriction is
necessary.) -/
theorem shift_increments_codepoints :
    (∀ s : List Nat, (∀ u ∈ s, goodUnit u) →
      (strIter (shift s)).map codePoint
        = (strIter s).map (fun c => codePoint c + 1)
      ∧ (shift s).length = s.length)
    ∧ shift (strUnits "a") = strUnits "b"
    ∧ shift [] = [] := by
  refine ⟨fun s h => ?_, by decide, rfl⟩
  have hsh : shift s = s.map (fun u => u + 1) := shift_good s h
  constructor
  · rw [hsh, strIter_no_high s (fun u hu => goodUnit_not_high (h u hu)),
      strIter_no_high (s.map (fun u => u + 1))]
    · simp [List.map_map, codePoint]
    · intro w hw
      simp only [List.mem_map] at hw
      obtain ⟨u, hu, rfl⟩ := hw
      have := h u hu
      simp only [isHigh, decide_eq_false_iff_not, not_and, not_lt]
      rcases this with h1 | ⟨h2, h3⟩ <;> omega
  · rw [hsh]; simp

/-- C1 witness: the amended statement applied to `"Hello, World!"`. -/
theorem shift_increments_codepoints_witness :
    (strIter (shift (strUnits "Hello, World!"))).map codePoint
      = (strIter (strUnits "Hello, World!")).map (fun c => codePoint c + 1)
    ∧ (shift (strUnits "Hello, World!")).length
      = (strUnits "Hello, World!").length :=
  shift_increments_codepoints.1 (strUnits "Hello, World!") (by decide)

/-- C7 counterexample: for the well-formed input ⟨U+D7FF, U+10FC00⟩
(code units `[0xD7FF, 0xDBFF, 0xDC00]`, two iterated characters), the
incremented units `[0xD800, 0xDC00]` form a surrogate pair, so `shift`
returns a string of one iterated character: the code-point length is not
preserved. -/
theorem shift_scalar_length_counterexample :
    ¬ ((strIter (shift [0xD7FF, 0xDBFF, 0xDC00])).length
        = (strIter [0xD7FF, 0xDBFF, 0xDC00]).length) := by
  decide

/-- C7 (amended): for every string `s`, the length of `shift s` in UTF-16
code units equals the number of characters the string iterator yields
from `s` — `shift` emits exactly one code unit per iterated input
character.  The code-point length of the output itself can differ, since
incremented units may merge into new surrogate pairs. -/
theorem shift_length_eq_iter_length (s : List Nat) :
    (shift s).length = (strIter s).length := by
  simp [shift]

/-- C7 witness: the amended statement at a supplementary-plane input. -/
theorem shift_length_eq_iter_length_witness :
    (shift [0xD800, 0xDC00]).length = (strIter [0xD800, 0xDC00]).length :=
  shift_length_eq_iter_length [0xD800, 0xDC00]

/-- C10: `shift` increments the FIRST 16-bit code unit of each iterated
character and truncates modulo 2^16: position by position the output unit
is `(first unit + 1) % 2^16`; the character U+FFFF maps to U+0000; and a
character outside the BMP (a surrogate pair) is mapped from its high
surrogate alone, not from its code point. -/
theorem shift_code_unit_semantics :
    (∀ (s : List Nat) (i : Nat), i < (strIter s).length →
      (shift s).getD i 0 = (((strIter s).getD i []).headD 0 + 1) % 65536)
    ∧ shift [0xFFFF] = [0]
    ∧ (∀ h l, isHigh h = true → isLow l = true →
        shift [h, l] = [(h + 1) % 65536])
    ∧ shift [0xD800, 0xDC00] = [0xD801] := by
  refine ⟨fun s i hi => ?_, by decide, fun h l hh hl => ?_, by decide⟩
  · rw [shift, List.getD_eq_getElem?_getD, List.getD_eq_getElem?_getD,
      List.getElem?_map]
    cases hx : (strIter s)[i]? with
    | none =>
      simp only [List.getElem?_eq_none_iff] at hx
      omega
    | some c => simp
  · rw [shift, strIter, if_pos (by rw [hh, hl]; rfl)]
    rfl

/-- C10 witness: the per-position law at U+1D11E (𝄞) and the
surrogate-pair law at the pair ⟨0xDBFF, 0xDFFF⟩. -/
theorem shift_code_unit_semantics_witness :
    (shift [0xD834, 0xDD1E]).getD 0 0 = 0xD835
    ∧ shift [0xDBFF, 0xDFFF] = [0xDC00] :=
  ⟨shift_code_unit_semantics.1 [0xD834, 0xDD1E] 0 (by decide),
   shift_code_unit_semantics.2.2.1 0xDBFF 0xDFFF (by decide) (by decide)⟩

/-- HTTP request methods relevant to the Express app. -/
inductive Method
  | get | head | post | put | delete | patch | options
deriving DecidableEq

/-- An HTTP request: a method and a path, the path given as its slash
separated segments (so `/public/a.txt` is `["public", "a.txt"]` and `/`
is `[]`). -/
structure Req where
  method : Method
  path : List String
deriving DecidableEq

/-- A response body: a rendered view (template name and template
variables, as passed to `res.render`), the bytes of a static file, or
the empty body of Express's default 404 handler. -/
inductive Body
  | rendered (template : String) (vars : List (String × String))
  | fileBytes (data : List Nat)
  | empty
deriving DecidableEq

/-- An HTTP response: status, Content-Type header, body.  The
Content-Type of a static-file response is chosen by `serve-static` from
the file extension and is not modelled. -/
structure Resp where
  status : Nat
  contentType : Option String
  body : Body
deriving DecidableEq

/-- `app.get` routes (and `serve-static`) serve GET requests; Express's
router additionally dispatches HEAD requests to GET handlers. -/
def isGetOrHead : Method → Bool
  | .get => true
  | .head => true
  | _ => false

/-- The response of the catch-all route in `unnamed/part_000`:
`res.render("index")` — status 200, `Content-Type: text/html`, the
`index` template rendered with no template variables. -/
def renderIndexResp : Resp := ⟨200, some "text/html", Body.rendered "index" []⟩

/-- Express's default handler for a request matched by no route:
status 404 with an HTML error body (modelled as empty). -/
def notFoundResp : Resp := ⟨404, some "text/html", Body.empty⟩

/-- The routing stack after the static middleware: the catch-all
`app.get("*", (req, res) => res.render("index"))` matches every path but
only the GET (and HEAD) methods; any other method falls off the stack
into Express's default 404. -/
def afterStatic (req : Req) : Resp :=
  if isGetOrHead req.method = true then renderIndexResp else notFoundResp

/-- The Express app of `unnamed/part_000`, as a function from a static
file tree and a request to the response.  `fs` associates each relative
segment path under the static directory with that file's bytes.
Middleware runs in registration order:
1. `morgan("dev")` logs and calls `next()` — no effect on the response;
2. `app.use("/public", express.static(join(__dirname, "public")))` —
   for a GET/HEAD request whose path is under the `/public` mount, the
   mount prefix is stripped and the file is looked up under the static
   directory; if found its bytes are served, and otherwise `serve-static`
   calls `next()` (its default `fallthrough` behaviour), passing the
   request on; non-GET/HEAD requests are passed on immediately;
3. `app.get("*", ...)` as modelled by `afterStatic`. -/
def dispatch (fs : List (List String × List Nat)) (req : Req) : Resp :=
  if req.path.headD "" = "public" ∧ isGetOrHead req.method = true then
    match fs.lookup req.path.tail with
    | some data => ⟨200, none, Body.fileBytes data⟩
    | none => afterStatic req
  else afterStatic req

/-- C2 counterexample: the catch-all route is registered with `app.get`,
so a POST request to `/` is not accepted by it: the server answers with
Express's default 404, not with the rendered template. -/
theorem serve_catch_all_method_counterexample :
    dispatch [] ⟨Method.post, []⟩ = notFoundResp
    ∧ ¬ (dispatch [] ⟨Method.post, []⟩ = renderIndexResp) := by
  decide

/-- C2 (amended): the catch-all handler is registered for the GET method
only (`app.get("*")`); every GET request whose path is not resolved by
the static middleware — any path outside the `/public` mount, or one
under it with no matching file — is answered, path segments ignored, by
rendering the single `index` template with no template variables, status
200, `Content-Type: text/html`.  Requests with other methods are not
handled by the catch-all. -/
theorem serve_catch_all_renders_index (fs : List (List String × List Nat))
    (p : List String) (h : p.headD "" = "public" → fs.lookup p.tail = none) :
    dispatch fs ⟨Method.get, p⟩ = renderIndexResp := by
  by_cases hp : p.headD "" = "public"
  · simp only [dispatch]
    rw [if_pos ⟨hp, rfl⟩, h hp]
    rfl
  · simp only [dispatch]
    rw [if_neg (fun hc => hp hc.1)]
    rfl

/-- C2 witness: `GET /anything/at/all` on an empty static tree renders
the template. -/
theorem serve_catch_all_renders_index_witness :
    dispatch [] ⟨Method.get, ["anything", "at", "all"]⟩ = renderIndexResp :=
  serve_catch_all_renders_index [] ["anything", "at", "all"] (by decide)

/-- C8 counterexample: `GET /public/missing.txt` with no such file does
NOT return 404 — `serve-static` falls through to the catch-all, which
renders the template with status 200. -/
theorem serve_static_missing_counterexample :
    dispatch [] ⟨Method.get, ["public", "missing.txt"]⟩ = renderIndexResp
    ∧ ¬ ((dispatch [] ⟨Method.get, ["public", "missing.txt"]⟩).status = 404) := by
  decide

/-- C8 (amended): a GET request for a path under the `/public` prefix
returns the bytes of the corresponding file under the static directory
when that file exists; when it does not, the request falls through to
the catch-all route and is answered with the rendered `index` template
and status 200, not with a 404. -/
theorem serve_static_lookup (fs : List (List String × List Nat)) (rel : List String) :
    (∀ data, fs.lookup rel = some data →
      dispatch fs ⟨Method.get, "public" :: rel⟩ = ⟨200, none, Body.fileBytes data⟩)
    ∧ (fs.lookup rel = none →
      dispatch fs ⟨Method.get, "public" :: rel⟩ = renderIndexResp) := by
  constructor
  · intro data h
    simp only [dispatch]
    rw [if_pos ⟨rfl, rfl⟩]
    simp only [List.tail_cons, h]
  · intro h
    simp only [dispatch]
    rw [if_pos ⟨rfl, rfl⟩]
    simp only [List.tail_cons, h]
    rfl

/-- C8 witness: with a static tree holding `a.txt`, `GET /public/a.txt`
serves its bytes and `GET /public/b.txt` renders the template. -/
theorem serve_static_lookup_witness :
    dispatch [(["a.txt"], [104, 105])] ⟨Method.get, ["public", "a.txt"]⟩
      = ⟨200, none, Body.fileBytes [104, 105]⟩
    ∧ dispatch [(["a.txt"], [104, 105])] ⟨Method.get, ["public", "b.txt"]⟩
      = renderIndexResp :=
  ⟨(serve_static_lookup [(["a.txt"], [104, 105])] ["a.txt"]).1 [104, 105] (by decide),
   (serve_static_lookup [(["a.txt"], [104, 105])] ["b.txt"]).2 (by decide)⟩

/-- A DOM element as the bootstrap script builds them: a `<p>` element
holding text content (UTF-16 code units). -/
inductive DomElem
  | p (text : List Nat)
deriving DecidableEq

/-- The string literal `"Hello, World!"` of `src/client/index.ts`. -/
def shiftText : List Nat := strUnits "Hello, World!"

/-- The text set on `shiftElement`:
the template literal interpolating `shiftText` and `shift(shiftText)`. -/
def shiftMessage : List Nat :=
  shiftText ++ strUnits " shifts to " ++ shift shiftText

/-- The numeric array literal of `src/client/index.ts`.  The model uses
exact integers; at double precision the last literal is rounded, a
representation artifact the spec explicitly leaves open. -/
def numArr : List Int :=
  [12, 24, 5, 7, 8, 9, 5, 4, 345, 6, 7, 2, 1, 89381759823749183247]

/-- The text set on `sumElement`: the template literal interpolating
`numArr.join(" + ")` and `sum(...numArr)`. -/
def sumMessage : List Nat :=
  strUnits "The sum of \""
    ++ strUnits (String.intercalate " + " (numArr.map toString))
    ++ strUnits "\" is "
    ++ strUnits (toString (sum numArr))

/-- The bootstrap of `src/client/index.ts`, acting on the child list of
the `#app` mount element: `$("#app").append(shiftElement)` followed by
`$("#app").append(sumElement)` — jQuery `append` inserts the element at
the end of the mount's children. -/
def bootstrap (mountChildren : List DomElem) : List DomElem :=
  (mountChildren ++ [DomElem.p shiftMessage]) ++ [DomElem.p sumMessage]

/-- C9: whatever the mount element's children were, the bootstrap
appends exactly two paragraph elements holding the computed texts, in a
fixed order — the shift-result element first, then the sum-result
element. -/
theorem bootstrap_appends_two (init : List DomElem) :
    bootstrap init = init ++ [DomElem.p shiftMessage, DomElem.p sumMessage]
    ∧ (bootstrap init).length = init.length + 2 := by
  constructor
  · simp [bootstrap]
  · simp [bootstrap]

/-- C9 witness: the bootstrap applied to an empty mount element. -/
theorem bootstrap_appends_two_witness :
    bootstrap [] = [DomElem.p shiftMessage, DomElem.p sumMessage] :=
  (bootstrap_appends_two []).1
